import Mathlib

/-!
Shallow embedding of the `ethers-flashbots` crate (searcher-side Flashbots
client): the bundle data model (`src/bundle.rs`), the submission middleware
(`src/middleware.rs`), the inclusion poller (`src/pending_bundle.rs`) and the
tolerant numeric deserializers (`src/utils.rs`).

Conventions of the embedding:
* byte strings are `List Nat` (one `Nat` per byte);
* 256-bit hashes (`H256`/`TxHash`/`BundleHash`) and 160-bit addresses are
  `Nat`;
* `keccak256` is an uninterpreted parameter `keccak : List Nat → Nat` passed
  to every definition whose Rust counterpart calls it — no claim below
  depends on the internals of the hash function;
* fallible Rust code returns `Except`, `Option` stays `Option`.
-/

set_option autoImplicit false

/-- Byte strings (Rust `Bytes` / `Vec<u8>`). -/
abbrev Bytes := List Nat

/-- 32-byte transaction hashes (`ethers::types::TxHash`), as numbers. -/
abbrev TxHash := Nat

/-- A bundle hash (`src/bundle.rs`: `pub type BundleHash = H256`). -/
abbrev BundleHash := Nat

/-- An `ethers` signed transaction object (`ethers::types::Transaction`),
abstracted to its RLP encoding: `rlp` is the byte string that the `rlp()`
method of `ethers::types::Transaction` produces for it. -/
structure Transaction where
  rlp : Bytes
deriving DecidableEq

/-- Modelled from the dependency `ethers-rs`: `Transaction::hash()`
recomputes the transaction hash as `keccak256(self.rlp())`. -/
def Transaction.hash (keccak : Bytes → Nat) (tx : Transaction) : TxHash :=
  keccak tx.rlp

/-- `src/bundle.rs`: `enum BundleTransaction` — a transaction that can be
added to a bundle, either a pre-signed transaction object or an RLP encoded
signed transaction. -/
inductive BundleTransaction where
  | Signed (inner : Transaction)
  | Raw (inner : Bytes)
deriving DecidableEq

/-- The wire encoding of a bundle transaction, as produced inside
`serialize_txs` in `src/bundle.rs`: the RLP encoding for the signed variant,
the raw bytes for the raw variant. -/
def BundleTransaction.encoding : BundleTransaction → Bytes
  | .Signed inner => inner.rlp
  | .Raw inner => inner

/-- `src/bundle.rs`: `struct BundleRequest` (field defaults are the
`Default` derive: empty vectors and `None` options). -/
structure BundleRequest where
  transactions : List BundleTransaction := []
  revertible_transaction_hashes : List TxHash := []
  target_block : Option Nat := none
  min_timestamp : Option Nat := none
  max_timestamp : Option Nat := none
  simulation_block : Option Nat := none
  simulation_timestamp : Option Nat := none
  simulation_basefee : Option Nat := none
deriving DecidableEq

/-- `BundleRequest::new()` — the empty (default) bundle request. -/
def BundleRequest.new : BundleRequest := {}

/-- `BundleRequest::push_transaction`. -/
def BundleRequest.push_transaction (b : BundleRequest) (tx : BundleTransaction) :
    BundleRequest :=
  { b with transactions := b.transactions ++ [tx] }

/-- `BundleRequest::push_revertible_transaction`: appends the transaction and
records its hash (computed at push time: `inner.hash()` for the signed
variant, `keccak256(inner)` for the raw variant) in the revertible set. -/
def BundleRequest.push_revertible_transaction (b : BundleRequest)
    (keccak : Bytes → Nat) (tx : BundleTransaction) : BundleRequest :=
  let tx_hash : TxHash :=
    match tx with
    | .Signed inner => inner.hash keccak
    | .Raw inner => keccak inner
  { b with
      transactions := b.transactions ++ [tx],
      revertible_transaction_hashes := b.revertible_transaction_hashes ++ [tx_hash] }

/-- `BundleRequest::block()` — the target block getter. -/
def BundleRequest.block (b : BundleRequest) : Option Nat :=
  b.target_block

/-- `BundleRequest::set_block`. -/
def BundleRequest.set_block (b : BundleRequest) (block : Nat) : BundleRequest :=
  { b with target_block := some block }

/-- `BundleRequest::set_min_timestamp`. -/
def BundleRequest.set_min_timestamp (b : BundleRequest) (timestamp : Nat) :
    BundleRequest :=
  { b with min_timestamp := some timestamp }

/-- `BundleRequest::set_max_timestamp`. -/
def BundleRequest.set_max_timestamp (b : BundleRequest) (timestamp : Nat) :
    BundleRequest :=
  { b with max_timestamp := some timestamp }

/-- `BundleRequest::transaction_hashes`: the content hash of each transaction
in push order — `keccak256(inner.rlp())` for the signed variant,
`keccak256(inner)` for the raw variant. -/
def BundleRequest.transaction_hashes (b : BundleRequest) (keccak : Bytes → Nat) :
    List TxHash :=
  b.transactions.map fun tx =>
    match tx with
    | .Signed inner => keccak inner.rlp
    | .Raw inner => keccak inner

/-- C2: for every bundle, `transaction_hashes` is exactly the transaction
list mapped through (keccak-256 of the wire encoding) — same length, same
order, and each element is the content hash of the corresponding
transaction's raw signed encoding (RLP for the signed variant, the raw bytes
for the raw variant). -/
theorem transaction_hashes_are_content_hashes
    (keccak : Bytes → Nat) (b : BundleRequest) :
    b.transaction_hashes keccak
      = b.transactions.map (fun tx => keccak tx.encoding)
    ∧ (b.transaction_hashes keccak).length = b.transactions.length := by
  constructor
  · unfold BundleRequest.transaction_hashes
    refine List.map_congr_left ?_
    intro tx _
    cases tx <;> rfl
  · unfold BundleRequest.transaction_hashes
    exact List.length_map _ _

/-- C9: `push_revertible_transaction` appends the transaction and records, in
the revertible set, exactly the hash that `transaction_hashes` reports for
that (last) transaction — for both the signed and the raw variant. -/
theorem push_revertible_records_matching_hash
    (keccak : Bytes → Nat) (b : BundleRequest) (tx : BundleTransaction) :
    ∃ h : TxHash,
      (b.push_revertible_transaction keccak tx).transactions
          = b.transactions ++ [tx]
      ∧ (b.push_revertible_transaction keccak tx).revertible_transaction_hashes
          = b.revertible_transaction_hashes ++ [h]
      ∧ (b.push_revertible_transaction keccak tx).transaction_hashes keccak
          = b.transaction_hashes keccak ++ [h] := by
  cases tx with
  | Signed inner =>
      refine ⟨keccak inner.rlp, rfl, rfl, ?_⟩
      simp [BundleRequest.push_revertible_transaction,
        BundleRequest.transaction_hashes]
  | Raw inner =>
      refine ⟨keccak inner, rfl, rfl, ?_⟩
      simp [BundleRequest.push_revertible_transaction,
        BundleRequest.transaction_hashes]

/-- The shapes of JSON values appearing in the serialized form of a
`BundleRequest` (`src/bundle.rs`, serde derive): hex-encoded byte strings
(`Bytes`), hex-encoded 32-byte hashes (`H256`), hex quantities (`U64`) and
plain JSON numbers (`u64`). -/
inductive JsonValue where
  | byteStrings (bs : List Bytes)
  | hashes (hs : List TxHash)
  | hexQuantity (n : Nat)
  | number (n : Nat)

/-- One optional serde field: emitted as a single (key, value) pair when
set, physically absent when unset (`skip_serializing_if = "Option::is_none"`,
never `null`). -/
def optField (key : String) (v : Option Nat) (toVal : Nat → JsonValue) :
    List (String × JsonValue) :=
  match v with
  | none => []
  | some n => [(key, toVal n)]

/-- The serde serialization of `BundleRequest` (`src/bundle.rs`), as the
ordered list of emitted (key, value) pairs:
`txs` is always emitted (via `serialize_txs`, which maps each transaction to
its wire encoding); `revertingTxHashes` carries
`skip_serializing_if = "Vec::is_empty"`; every optional field carries
`skip_serializing_if = "Option::is_none"`, so an unset field is physically
absent (never `null`). Keys follow the serde renames. -/
def serialize_bundle_request (b : BundleRequest) : List (String × JsonValue) :=
  ("txs", .byteStrings (b.transactions.map BundleTransaction.encoding)) ::
    ((if b.revertible_transaction_hashes.isEmpty then []
      else [("revertingTxHashes", JsonValue.hashes b.revertible_transaction_hashes)])
    ++ optField "blockNumber" b.target_block JsonValue.hexQuantity
    ++ optField "minTimestamp" b.min_timestamp JsonValue.number
    ++ optField "maxTimestamp" b.max_timestamp JsonValue.number
    ++ optField "stateBlockNumber" b.simulation_block JsonValue.hexQuantity
    ++ optField "timestamp" b.simulation_timestamp JsonValue.number
    ++ optField "baseFee" b.simulation_basefee JsonValue.number)

/-- The keys emitted when serializing a bundle request. -/
def serialized_keys (b : BundleRequest) : List String :=
  (serialize_bundle_request b).map Prod.fst

@[simp]
theorem exists_pair_mem_optField (k key : String) (v : Option Nat)
    (toVal : Nat → JsonValue) :
    (∃ x, (k, x) ∈ optField key v toVal) ↔ (v.isSome ∧ k = key) := by
  cases v <;> simp [optField]

@[simp]
theorem exists_pair_mem_revField (k key : String) (l : List TxHash)
    (toVal : List TxHash → JsonValue) :
    (∃ x, (k, x) ∈ (if l.isEmpty then [] else [(key, toVal l)]))
      ↔ (l ≠ [] ∧ k = key) := by
  cases l <;> simp

/-- C3 counterexample: the empty bundle request serializes without a
`revertingTxHashes` key — the revertible-hash list is omitted when empty
(`skip_serializing_if = "Vec::is_empty"`), contrary to the claim that it
serializes even when empty. -/
theorem empty_revertible_list_not_serialized :
    ¬ ("revertingTxHashes" ∈ serialized_keys BundleRequest.new) := by
  decide

/-- C3 (amended): serialization omits every optional field that was never
set (physically absent, not null); the transaction list serializes even when
empty, but the revertible-hash list is omitted when empty and present
exactly when non-empty. -/
theorem serialization_field_presence (b : BundleRequest) :
    "txs" ∈ serialized_keys b
    ∧ ("revertingTxHashes" ∈ serialized_keys b
        ↔ b.revertible_transaction_hashes ≠ [])
    ∧ ("blockNumber" ∈ serialized_keys b ↔ b.target_block.isSome)
    ∧ ("minTimestamp" ∈ serialized_keys b ↔ b.min_timestamp.isSome)
    ∧ ("maxTimestamp" ∈ serialized_keys b ↔ b.max_timestamp.isSome)
    ∧ ("stateBlockNumber" ∈ serialized_keys b ↔ b.simulation_block.isSome)
    ∧ ("timestamp" ∈ serialized_keys b ↔ b.simulation_timestamp.isSome)
    ∧ ("baseFee" ∈ serialized_keys b ↔ b.simulation_basefee.isSome) := by
  refine ⟨?_, ?_, ?_, ?_, ?_, ?_, ?_, ?_⟩ <;>
    simp [serialized_keys, serialize_bundle_request]

/-- `src/relay.rs`: `enum RelayError` — the typed per-relay errors
(payloads of the external error types are elided; `ClientError` keeps its
diagnostic text). -/
inductive RelayError where
  | RequestError
  | JsonRpcError
  | ClientError (text : String)
  | RequestSerdeJson
  | SignerError
  | ResponseSerdeJson
deriving DecidableEq

/-- `src/middleware.rs`: `enum FlashbotsMiddlewareError`. -/
inductive FlashbotsMiddlewareError where
  | MissingParameters
  | RelayError (e : RelayError)
  | MiddlewareError
  | BundleSimError
  | BundleStatsError
  | UserStatsError
deriving DecidableEq

/-- `src/relay.rs`: `struct SendBundleResponse` — the relay's acknowledgment,
whose bundle hash some relays omit. -/
structure SendBundleResponse where
  bundle_hash : Option BundleHash
deriving DecidableEq

/-- `src/pending_bundle.rs`: `enum PendingBundleState` (the `GettingBlock`
variant's in-flight future is represented by the state alone; the block
lookup's answer is supplied to `poll` as an argument). -/
inductive PendingBundleState where
  | PausedGettingBlock
  | GettingBlock
  | Completed
deriving DecidableEq

/-- `src/pending_bundle.rs`: `struct PendingBundle` — bundle hash (optional),
target block, tracked transaction hashes, and the polling state. The
provider reference and poll interval are environment, not data. -/
structure PendingBundle where
  bundle_hash : Option BundleHash
  block : Nat
  transactions : List TxHash
  state : PendingBundleState
deriving DecidableEq

/-- `PendingBundle::new` starts in the `PausedGettingBlock` state. -/
def PendingBundle.new (bundle_hash : Option BundleHash) (block : Nat)
    (transactions : List TxHash) : PendingBundle :=
  ⟨bundle_hash, block, transactions, .PausedGettingBlock⟩

/-- Rust's `Option::xor`: `Some` exactly when exactly one operand is
`Some`. -/
def optXor : Option Nat → Option Nat → Option Nat
  | some x, none => some x
  | none, some y => some y
  | _, _ => none

/-- The relay's answer to one `eth_sendBundle` request, as consumed by the
middleware: either a typed relay error or an (optional) decoded
acknowledgment (`Ok(None)` models a `null` JSON-RPC result). -/
abbrev RelayAnswer := Except RelayError (Option SendBundleResponse)

/-- `FlashbotsMiddleware::send_bundle` (`src/middleware.rs`): requires a
target block, requires `min_timestamp`/`max_timestamp` to be both set or
both unset (via `Option::xor`), and only then consumes the relay's answer —
a pre-flight failure is therefore independent of `relayAnswer`, i.e. happens
before any network call. On success it wraps the acknowledgment in a fresh
`PendingBundle` carrying the bundle's transaction hashes. -/
def send_bundle (keccak : Bytes → Nat) (bundle : BundleRequest)
    (relayAnswer : RelayAnswer) :
    Except FlashbotsMiddlewareError PendingBundle :=
  match bundle.block with
  | none => .error .MissingParameters
  | some blk =>
    if (optXor bundle.min_timestamp bundle.max_timestamp).isSome then
      .error .MissingParameters
    else
      match relayAnswer with
      | .error e => .error (.RelayError e)
      | .ok response =>
        match response with
        | some r =>
            .ok (PendingBundle.new r.bundle_hash blk
              (bundle.transaction_hashes keccak))
        | none =>
            .ok (PendingBundle.new none blk
              (bundle.transaction_hashes keccak))

/-- The per-relay closure inside `BroadcasterMiddleware::send_bundle`
(`src/middleware.rs`): maps one relay's answer to a `PendingBundle` or a
`RelayError`-wrapped middleware error, independently of the other relays. -/
def relay_outcome (keccak : Bytes → Nat) (bundle : BundleRequest) (blk : Nat)
    (relayAnswer : RelayAnswer) :
    Except FlashbotsMiddlewareError PendingBundle :=
  match relayAnswer with
  | .error e => .error (.RelayError e)
  | .ok (some r) =>
      .ok (PendingBundle.new r.bundle_hash blk (bundle.transaction_hashes keccak))
  | .ok none =>
      .ok (PendingBundle.new none blk (bundle.transaction_hashes keccak))

/-- `BroadcasterMiddleware::send_bundle` (`src/middleware.rs`): fails fast
(before any network call) only when the target block is missing; otherwise
it collects every relay's outcome independently. -/
def broadcaster_send_bundle (keccak : Bytes → Nat) (bundle : BundleRequest)
    (relayAnswers : List RelayAnswer) :
    Except FlashbotsMiddlewareError
      (List (Except FlashbotsMiddlewareError PendingBundle)) :=
  match bundle.block with
  | none => .error .MissingParameters
  | some blk => .ok (relayAnswers.map (relay_outcome keccak bundle blk))

theorem optXor_isSome (a b : Option Nat) :
    (optXor a b).isSome = true ↔ ¬ (a.isSome = b.isSome) := by
  cases a <;> cases b <;> simp [optXor]

/-- C4: with a target block set, single-relay submission fails with the
missing-parameters error whenever exactly one of `min_timestamp` and
`max_timestamp` is set — and, being a pre-flight check, it does so for every
possible relay answer, i.e. without any network call; when both are set or
both are unset the check passes and the missing-parameters error can no
longer arise. -/
theorem send_bundle_timestamp_pairing
    (keccak : Bytes → Nat) (b : BundleRequest) (r : RelayAnswer)
    (hb : b.block.isSome = true) :
    (¬ (b.min_timestamp.isSome = b.max_timestamp.isSome) →
      send_bundle keccak b r = .error .MissingParameters)
    ∧ (b.min_timestamp.isSome = b.max_timestamp.isSome →
      send_bundle keccak b r ≠ .error .MissingParameters) := by
  obtain ⟨blk, hblk⟩ := Option.isSome_iff_exists.mp hb
  constructor
  · intro hne
    have hx : (optXor b.min_timestamp b.max_timestamp).isSome = true :=
      (optXor_isSome _ _).mpr hne
    simp [send_bundle, hblk, hx]
  · intro heq
    have hx : ¬ (optXor b.min_timestamp b.max_timestamp).isSome = true := by
      intro hcontra
      exact ((optXor_isSome _ _).mp hcontra) heq
    cases r with
    | error e => simp [send_bundle, hblk, hx]
    | ok response => cases response <;> simp [send_bundle, hblk, hx]

/-- C4 witness: a concrete bundle with target block 1 and only
`min_timestamp` set is rejected pre-flight, while the same bundle with both
timestamps unset is not rejected with the missing-parameters error. -/
theorem send_bundle_timestamp_pairing_witness :
    send_bundle (fun _ => 0)
        ((BundleRequest.new.set_block 1).set_min_timestamp 1000) (.ok none)
      = .error .MissingParameters
    ∧ send_bundle (fun _ => 0) (BundleRequest.new.set_block 1) (.ok none)
      ≠ .error .MissingParameters :=
  ⟨(send_bundle_timestamp_pairing (fun _ => 0)
      ((BundleRequest.new.set_block 1).set_min_timestamp 1000) (.ok none)
      (by decide)).1 (by decide),
   (send_bundle_timestamp_pairing (fun _ => 0)
      (BundleRequest.new.set_block 1) (.ok none)
      (by decide)).2 (by decide)⟩

/-- C5 counterexample: a concrete bundle with zero transactions (and a
target block) is NOT rejected pre-flight — single-relay submission consumes
the relay's answer and returns a pending bundle, instead of failing with the
missing-parameters error as the claim states. -/
theorem empty_bundle_submission_not_rejected :
    send_bundle (fun _ => 0) (BundleRequest.new.set_block 1) (.ok none)
        = .ok (PendingBundle.new none 1 [])
    ∧ send_bundle (fun _ => 0) (BundleRequest.new.set_block 1) (.ok none)
        ≠ .error .MissingParameters := by
  constructor
  · rfl
  · intro h
    exact Except.noConfusion h

/-- C5 (amended): single-relay submission never validates the transaction
count — it returns the missing-parameters error exactly when the target
block is unset or exactly one of `min_timestamp`/`max_timestamp` is set; a
bundle with zero transactions passes pre-flight and is sent to the relay. -/
theorem send_bundle_missing_parameters_iff
    (keccak : Bytes → Nat) (b : BundleRequest) (r : RelayAnswer) :
    send_bundle keccak b r = .error .MissingParameters
      ↔ (b.target_block = none
          ∨ ¬ (b.min_timestamp.isSome = b.max_timestamp.isSome)) := by
  rcases hblk : b.block with _ | blk
  · simp only [BundleRequest.block] at hblk
    simp [send_bundle, BundleRequest.block, hblk]
  · simp only [BundleRequest.block] at hblk
    by_cases hx : (optXor b.min_timestamp b.max_timestamp).isSome = true
    · have := (optXor_isSome _ _).mp hx
      simp [send_bundle, BundleRequest.block, hblk, hx, this]
    · have heq : b.min_timestamp.isSome = b.max_timestamp.isSome := by
        by_contra hne
        exact hx ((optXor_isSome _ _).mpr hne)
      cases r with
      | error e =>
          simp [send_bundle, BundleRequest.block, hblk, hx, hblk, heq]
      | ok response =>
          cases response <;>
            simp [send_bundle, BundleRequest.block, hblk, hx, heq]

/-- C6: multi-relay broadcast fails fast with the missing-parameters error
exactly when the target block is missing (before any relay is contacted, so
for every list of relay answers); otherwise it returns one outcome per relay
— the list of outcomes has the same length as the list of relays, and the
i-th outcome is a function of the i-th relay's answer alone, so one relay's
failure never cancels or fails the others. -/
theorem broadcaster_send_bundle_outcomes
    (keccak : Bytes → Nat) (b : BundleRequest) (rs : List RelayAnswer) :
    (b.target_block = none →
      broadcaster_send_bundle keccak b rs = .error .MissingParameters)
    ∧ ∀ blk, b.target_block = some blk →
        ∃ outs, broadcaster_send_bundle keccak b rs = .ok outs
          ∧ outs.length = rs.length
          ∧ ∀ i : Nat, outs[i]? = (rs[i]?).map (relay_outcome keccak b blk) := by
  constructor
  · intro hnone
    simp [broadcaster_send_bundle, BundleRequest.block, hnone]
  · intro blk hblk
    refine ⟨rs.map (relay_outcome keccak b blk), ?_, ?_, ?_⟩
    · simp [broadcaster_send_bundle, BundleRequest.block, hblk]
    · exact List.length_map _ _
    · intro i
      exact List.getElem?_map _ rs i

/-- C6 witness: broadcasting to three concrete relays where relay 2 answers
with a 400-style client error returns three independent outcomes; with the
target block missing the broadcast fails fast with the missing-parameters
error. -/
theorem broadcaster_send_bundle_outcomes_witness :
    broadcaster_send_bundle (fun _ => 0) BundleRequest.new
        [.ok none, .error (.ClientError "bad request"), .ok (some ⟨some 9⟩)]
      = .error .MissingParameters
    ∧ ∃ outs,
        broadcaster_send_bundle (fun _ => 0) (BundleRequest.new.set_block 2)
            [.ok none, .error (.ClientError "bad request"), .ok (some ⟨some 9⟩)]
          = .ok outs
        ∧ outs.length
            = [(.ok none : RelayAnswer),
               .error (.ClientError "bad request"), .ok (some ⟨some 9⟩)].length
        ∧ ∀ i : Nat,
            outs[i]?
              = ([(.ok none : RelayAnswer),
                  .error (.ClientError "bad request"), .ok (some ⟨some 9⟩)][i]?).map
                  (relay_outcome (fun _ => 0) (BundleRequest.new.set_block 2) 2) :=
  ⟨(broadcaster_send_bundle_outcomes (fun _ => 0) BundleRequest.new
      [.ok none, .error (.ClientError "bad request"), .ok (some ⟨some 9⟩)]).1 rfl,
   (broadcaster_send_bundle_outcomes (fun _ => 0) (BundleRequest.new.set_block 2)
      [.ok none, .error (.ClientError "bad request"), .ok (some ⟨some 9⟩)]).2 2 rfl⟩

/-- A provider error (`ethers::providers::ProviderError`), opaque to the
poller — `src/pending_bundle.rs` only ever tests `is_err()` on it. -/
inductive ProviderErr where
  | err

/-- A fetched block, reduced to what the poller reads
(`ethers::types::Block<TxHash>`): its optional assigned number (`None`
while pending) and its transaction-hash list. -/
structure Block where
  number : Option Nat
  transactions : List TxHash

/-- `src/pending_bundle.rs`: `enum PendingBundleError`. -/
inductive PendingBundleError where
  | BundleNotIncluded
  | ProviderError (e : ProviderErr)

/-- The observable result of one `Future::poll` step on a pending bundle:
still pending, ready with a result, or a panic (the fail-loudly branch for
polling after completion). -/
inductive PollOutput where
  | Pending
  | Ready (result : Except PendingBundleError (Option BundleHash))
  | Panicked

/-- One `Future::poll` step of `PendingBundle` (`src/pending_bundle.rs`),
returning the successor state and the step's output. `block_res` stands for
the provider's answer to the in-flight `get_block(self.block)` request that
the `GettingBlock` state awaits (it is ignored in the other states):
* `PausedGettingBlock`: the interval has elapsed; issue the block request,
  move to `GettingBlock`, stay pending;
* `GettingBlock`: a provider error, a `null` block, or a block with no
  assigned number each return the machine to `PausedGettingBlock` (retry,
  nothing surfaced); a block with an assigned number completes: success with
  the (optional) bundle hash iff every tracked hash is contained in the
  block's transaction list, `BundleNotIncluded` otherwise;
* `Completed`: the Rust code panics ("polled pending bundle future after
  completion"). -/
def PendingBundle.poll (pb : PendingBundle)
    (block_res : Except ProviderErr (Option Block)) :
    PendingBundleState × PollOutput :=
  match pb.state with
  | .PausedGettingBlock => (.GettingBlock, .Pending)
  | .GettingBlock =>
    match block_res with
    | .error _ => (.PausedGettingBlock, .Pending)
    | .ok none => (.PausedGettingBlock, .Pending)
    | .ok (some block) =>
      match block.number with
      | none => (.PausedGettingBlock, .Pending)
      | some _ =>
        let included : Bool :=
          pb.transactions.all fun tx_hash => block.transactions.contains tx_hash
        if included then (.Completed, .Ready (.ok pb.bundle_hash))
        else (.Completed, .Ready (.error .BundleNotIncluded))
  | .Completed => (.Completed, .Panicked)

/-- C1: when the awaited target block arrives with an assigned number, the
poller completes exactly then (state becomes `Completed`), resolving with
the bundle's (optional) bundle hash if and only if every tracked transaction
hash is a member of the block's transaction-hash list, and with the
distinguished `BundleNotIncluded` error otherwise. -/
theorem pending_bundle_resolution
    (pb : PendingBundle) (blk : Block) (n : Nat)
    (hstate : pb.state = .GettingBlock) (hnum : blk.number = some n) :
    (pb.poll (.ok (some blk))
        = (.Completed, .Ready (.ok pb.bundle_hash))
      ↔ ∀ h ∈ pb.transactions, h ∈ blk.transactions)
    ∧ (¬ (∀ h ∈ pb.transactions, h ∈ blk.transactions) →
        pb.poll (.ok (some blk))
          = (.Completed, .Ready (.error .BundleNotIncluded))) := by
  constructor
  · constructor
    · intro hpoll
      by_contra hnot
      have herr : pb.poll (.ok (some blk))
          = (.Completed, .Ready (.error .BundleNotIncluded)) := by
        simp [PendingBundle.poll, hstate, hnum, hnot]
      rw [herr] at hpoll
      simp at hpoll
    · intro hall
      simp [PendingBundle.poll, hstate, hnum]
      exact hall
  · intro hnot
    simp [PendingBundle.poll, hstate, hnum, hnot]

/-- C1 witness: a pending bundle tracking hash 5, polled in the
block-fetching state with target block containing transactions [4, 5],
resolves with its bundle hash; tracking hash 6 instead, it resolves with
`BundleNotIncluded`. -/
theorem pending_bundle_resolution_witness :
    PendingBundle.poll ⟨some 7, 1, [5], .GettingBlock⟩
        (.ok (some ⟨some 1, [4, 5]⟩))
      = (.Completed, .Ready (.ok (some 7)))
    ∧ PendingBundle.poll ⟨some 7, 1, [6], .GettingBlock⟩
        (.ok (some ⟨some 1, [4, 5]⟩))
      = (.Completed, .Ready (.error .BundleNotIncluded)) :=
  ⟨(pending_bundle_resolution ⟨some 7, 1, [5], .GettingBlock⟩
      ⟨some 1, [4, 5]⟩ 1 rfl rfl).1.mpr (by decide),
   (pending_bundle_resolution ⟨some 7, 1, [6], .GettingBlock⟩
      ⟨some 1, [4, 5]⟩ 1 rfl rfl).2 (by decide)⟩

/-- C7: transient conditions never surface — in the waiting state a poll
just moves to fetching and stays pending, and in the fetching state a
provider error, a `null` block, or a block with no assigned number each
return the machine to the waiting state with a pending output (retried
indefinitely, the error is never handed to the caller); polling after the
terminal `Completed` state panics (fails loudly, never a silent no-op). -/
theorem pending_bundle_transient_retry_and_completed_panic
    (pb : PendingBundle) (e : ProviderErr) (blk : Block)
    (res : Except ProviderErr (Option Block)) :
    (pb.state = .PausedGettingBlock →
      pb.poll res = (.GettingBlock, .Pending))
    ∧ (pb.state = .GettingBlock →
      pb.poll (.error e) = (.PausedGettingBlock, .Pending))
    ∧ (pb.state = .GettingBlock →
      pb.poll (.ok none) = (.PausedGettingBlock, .Pending))
    ∧ (pb.state = .GettingBlock → blk.number = none →
      pb.poll (.ok (some blk)) = (.PausedGettingBlock, .Pending))
    ∧ (pb.state = .Completed →
      pb.poll res = (.Completed, .Panicked)) := by
  refine ⟨?_, ?_, ?_, ?_, ?_⟩ <;> intro hstate
  · simp [PendingBundle.poll, hstate]
  · simp [PendingBundle.poll, hstate]
  · simp [PendingBundle.poll, hstate]
  · intro hnum
    simp [PendingBundle.poll, hstate, hnum]
  · simp [PendingBundle.poll, hstate]

/-- C7 witness: concrete polls — from the waiting state, from the fetching
state under a provider error, a `null` block and a pending block, and from
the completed state (which panics). -/
theorem pending_bundle_transient_retry_and_completed_panic_witness :
    PendingBundle.poll ⟨none, 3, [1], .PausedGettingBlock⟩ (.ok none)
      = (.GettingBlock, .Pending)
    ∧ PendingBundle.poll ⟨none, 3, [1], .GettingBlock⟩ (.error .err)
      = (.PausedGettingBlock, .Pending)
    ∧ PendingBundle.poll ⟨none, 3, [1], .GettingBlock⟩ (.ok none)
      = (.PausedGettingBlock, .Pending)
    ∧ PendingBundle.poll ⟨none, 3, [1], .GettingBlock⟩ (.ok (some ⟨none, [1]⟩))
      = (.PausedGettingBlock, .Pending)
    ∧ PendingBundle.poll ⟨none, 3, [1], .Completed⟩ (.ok none)
      = (.Completed, .Panicked) :=
  ⟨(pending_bundle_transient_retry_and_completed_panic
      ⟨none, 3, [1], .PausedGettingBlock⟩ .err ⟨none, [1]⟩ (.ok none)).1 rfl,
   (pending_bundle_transient_retry_and_completed_panic
      ⟨none, 3, [1], .GettingBlock⟩ .err ⟨none, [1]⟩ (.ok none)).2.1 rfl,
   (pending_bundle_transient_retry_and_completed_panic
      ⟨none, 3, [1], .GettingBlock⟩ .err ⟨none, [1]⟩ (.ok none)).2.2.1 rfl,
   (pending_bundle_transient_retry_and_completed_panic
      ⟨none, 3, [1], .GettingBlock⟩ .err ⟨none, [1]⟩ (.ok none)).2.2.2.1 rfl rfl,
   (pending_bundle_transient_retry_and_completed_panic
      ⟨none, 3, [1], .Completed⟩ .err ⟨none, [1]⟩ (.ok none)).2.2.2.2 rfl⟩

/-- C10: a bundle built through the public interface with zero transactions
and a target block passes single-relay submission (no rejection), and the
resulting pending bundle — tracking an empty hash list — resolves
successfully as soon as the target block exists with an assigned number,
whatever the block's contents (vacuous inclusion). -/
theorem empty_bundle_resolves_vacuously
    (keccak : Bytes → Nat) (t : Nat) (resp : Option SendBundleResponse)
    (res : Except ProviderErr (Option Block)) (blk : Block) (n : Nat)
    (hnum : blk.number = some n) :
    ∃ pb : PendingBundle,
      send_bundle keccak (BundleRequest.new.set_block t) (.ok resp) = .ok pb
      ∧ pb.transactions = []
      ∧ pb.block = t
      ∧ pb.poll res = (.GettingBlock, .Pending)
      ∧ PendingBundle.poll { pb with state := .GettingBlock } (.ok (some blk))
          = (.Completed, .Ready (.ok pb.bundle_hash)) := by
  cases resp with
  | none =>
      refine ⟨PendingBundle.new none t [], rfl, rfl, rfl, ?_, ?_⟩
      · simp [PendingBundle.poll, PendingBundle.new]
      · simp [PendingBundle.poll, PendingBundle.new, hnum]
  | some r =>
      refine ⟨PendingBundle.new r.bundle_hash t [], rfl, rfl, rfl, ?_, ?_⟩
      · simp [PendingBundle.poll, PendingBundle.new]
      · simp [PendingBundle.poll, PendingBundle.new, hnum]

/-- C10 witness: the concrete empty bundle targeting block 8 is accepted by
submission, and its pending bundle resolves successfully against a block
with an assigned number whose transactions are disjoint from anything
tracked. -/
theorem empty_bundle_resolves_vacuously_witness :
    ∃ pb : PendingBundle,
      send_bundle (fun _ => 0) (BundleRequest.new.set_block 8) (.ok none) = .ok pb
      ∧ pb.transactions = []
      ∧ pb.block = 8
      ∧ pb.poll (.ok none) = (.GettingBlock, .Pending)
      ∧ PendingBundle.poll { pb with state := .GettingBlock }
            (.ok (some ⟨some 8, [11, 12]⟩))
          = (.Completed, .Ready (.ok pb.bundle_hash)) :=
  empty_bundle_resolves_vacuously (fun _ => 0) 8 none (.ok none)
    ⟨some 8, [11, 12]⟩ 8 rfl

/-- Value of a hexadecimal digit character (either case); `none` for
anything else. -/
def hexDigit? (c : Char) : Option Nat :=
  if '0' ≤ c ∧ c ≤ '9' then some (c.toNat - '0'.toNat)
  else if 'a' ≤ c ∧ c ≤ 'f' then some (c.toNat - 'a'.toNat + 10)
  else if 'A' ≤ c ∧ c ≤ 'F' then some (c.toNat - 'A'.toNat + 10)
  else none

/-- Value of a decimal digit character; `none` for anything else. -/
def decDigit? (c : Char) : Option Nat :=
  if '0' ≤ c ∧ c ≤ '9' then some (c.toNat - '0'.toNat) else none

/-- Left-to-right digit accumulation (the loop shared by the integer
parsers of the `uint` dependency). -/
def parseDigitsAux (digit? : Char → Option Nat) (radix : Nat) :
    List Char → Nat → Option Nat
  | [], acc => some acc
  | c :: cs, acc =>
    match digit? c with
    | none => none
    | some d => parseDigitsAux digit? radix cs (acc * radix + d)

/-- Digit-string value; the empty string is invalid. -/
def parseDigits (digit? : Char → Option Nat) (radix : Nat) :
    List Char → Option Nat
  | [] => none
  | c :: cs => parseDigitsAux digit? radix (c :: cs) 0

/-- Whether a character list begins with the two characters `0x`. -/
def startsWith0x (s : List Char) : Bool :=
  match s with
  | c1 :: c2 :: _ => c1 = '0' && c2 = 'x'
  | _ => false

/-- Modelled from the dependency `uint` (re-exported by `ethers`):
`from_str_radix(txt, 16)` strips one optional `0x` prefix and parses
hexadecimal digits of either case, failing on an empty digit string, an
invalid character, or a value at or above `limit` (the type's capacity,
`2^256` for `U256`, `2^64` for `U64`). -/
def from_str_radix_16 (limit : Nat) (s : List Char) : Except String Nat :=
  let stripped := if startsWith0x s then s.drop 2 else s
  match parseDigits hexDigit? 16 stripped with
  | none => .error "invalid hex digit"
  | some n => if n < limit then .ok n else .error "overflow"

/-- Modelled from the dependency `uint` (re-exported by `ethers`):
`from_dec_str` folds over decimal digits starting from zero (so the empty
string parses as zero), failing on an invalid character or on overflow past
`limit`. -/
def from_dec_str (limit : Nat) (s : List Char) : Except String Nat :=
  match parseDigitsAux decDigit? 10 s 0 with
  | none => .error "invalid dec digit"
  | some n => if n < limit then .ok n else .error "overflow"

/-- Input JSON values for the deserializers of `src/utils.rs`
(`serde_json::Value`): a string (as a character list), an integral number,
or any other JSON value (`other` also stands for the non-integer numbers,
whose `as_u64` is `None`). -/
inductive JValue where
  | str (s : List Char)
  | num (n : Int)
  | other

/-- `serde_json::Number::as_u64`: defined exactly for non-negative integers
below `2^64`. -/
def numAsU64 (n : Int) : Option Nat :=
  if 0 ≤ n ∧ n.toNat < 2 ^ 64 then some n.toNat else none

/-- `src/utils.rs`: `deserialize_u256` — accepts the literal string `"0x"`
as zero, any other `0x`-prefixed string as hexadecimal, any other string as
decimal, and an integral JSON number via `as_u64`; every other JSON value is
a type error. -/
def deserialize_u256 (v : JValue) : Except String Nat :=
  match v with
  | .str s =>
      if s = ['0', 'x'] then .ok 0
      else if startsWith0x s then from_str_radix_16 (2 ^ 256) s
      else from_dec_str (2 ^ 256) s
  | .num n =>
      match numAsU64 n with
      | some m => .ok m
      | none => .error "Invalid number"
  | .other => .error "wrong type"

/-- `src/utils.rs`: `deserialize_u64` — same shape as `deserialize_u256`
with the `U64` capacity. -/
def deserialize_u64 (v : JValue) : Except String Nat :=
  match v with
  | .str s =>
      if s = ['0', 'x'] then .ok 0
      else if startsWith0x s then from_str_radix_16 (2 ^ 64) s
      else from_dec_str (2 ^ 64) s
  | .num n =>
      match numAsU64 n with
      | some m => .ok m
      | none => .error "Invalid number"
  | .other => .error "wrong type"

/-- Modelled from the dependency `fixed-hash` (re-exported by `ethers`):
`H160::from_str` strips one optional `0x` prefix and requires exactly 40
hexadecimal digits. -/
def h160_from_str (s : List Char) : Option Nat :=
  let stripped := if startsWith0x s then s.drop 2 else s
  if stripped.length = 40 then parseDigits hexDigit? 16 stripped else none

/-- `src/utils.rs`: `deserialize_optional_h160` — the literal string `"0x"`
decodes to absence (`None`, contract creation); any other string must be a
full address; non-strings are type errors. -/
def deserialize_optional_h160 (v : JValue) : Except String (Option Nat) :=
  match v with
  | .str s =>
      if s = ['0', 'x'] then .ok none
      else
        match h160_from_str s with
        | some a => .ok (some a)
        | none => .error "invalid address"
  | .num _ => .error "expected a hexadecimal string"
  | .other => .error "expected a hexadecimal string"

theorem parseDigits_dec_not_startsWith0x (s : List Char) (n : Nat)
    (h : parseDigits decDigit? 10 s = some n) : startsWith0x s = false := by
  match s with
  | [] => simp [parseDigits] at h
  | [c] => rfl
  | c1 :: c2 :: rest =>
    by_contra hb
    have hb' : (decide (c1 = '0') && decide (c2 = 'x')) = true := by
      cases hx : (decide (c1 = '0') && decide (c2 = 'x')) with
      | true => rfl
      | false => exact absurd (by simpa [startsWith0x] using hx) hb
    have hc1 : c1 = '0' := by
      have := Bool.and_elim_left hb'
      simpa using this
    have hc2 : c2 = 'x' := by
      have := Bool.and_elim_right hb'
      simpa using this
    subst hc1
    subst hc2
    simp [parseDigits, parseDigitsAux, decDigit?] at h

/-- C8: the numeric deserialization routines accept a decimal string, a
`0x`-prefixed hex string, or a JSON number denoting the same integer and
decode each to that integer; the literal string `"0x"` decodes to zero; and
an address field whose value is exactly `"0x"` decodes to absence (`None`,
contract creation). -/
theorem tolerant_numeric_deserialization
    (n : Nat) (sDec sHex : List Char)
    (hdec : parseDigits decDigit? 10 sDec = some n)
    (hhex : parseDigits hexDigit? 16 sHex = some n)
    (hn : n < 2 ^ 64) :
    deserialize_u256 (.str sDec) = .ok n
    ∧ deserialize_u256 (.str ('0' :: 'x' :: sHex)) = .ok n
    ∧ deserialize_u256 (.num (n : Int)) = .ok n
    ∧ deserialize_u64 (.str sDec) = .ok n
    ∧ deserialize_u64 (.str ('0' :: 'x' :: sHex)) = .ok n
    ∧ deserialize_u64 (.num (n : Int)) = .ok n
    ∧ deserialize_u256 (.str ['0', 'x']) = .ok 0
    ∧ deserialize_u64 (.str ['0', 'x']) = .ok 0
    ∧ deserialize_optional_h160 (.str ['0', 'x']) = .ok none := by
  have h256 : n < 2 ^ 256 :=
    lt_of_lt_of_le hn (Nat.pow_le_pow_right (by norm_num) (by norm_num))
  have hsw : startsWith0x sDec = false :=
    parseDigits_dec_not_startsWith0x sDec n hdec
  have hne : sDec ≠ ['0', 'x'] := by
    intro he
    rw [he] at hsw
    simp [startsWith0x] at hsw
  have hdec' : parseDigitsAux decDigit? 10 sDec 0 = some n := by
    cases sDec with
    | nil => simp [parseDigits] at hdec
    | cons c cs => simpa [parseDigits] using hdec
  have hhexne : sHex ≠ [] := by
    intro he
    rw [he] at hhex
    simp [parseDigits] at hhex
  have hne2 : ('0' :: 'x' :: sHex) ≠ ['0', 'x'] := by
    intro he
    simp at he
    exact hhexne he
  have hswHex : startsWith0x ('0' :: 'x' :: sHex) = true := by
    simp [startsWith0x]
  have hn' : n < 18446744073709551616 := by simpa using hn
  have h256' :
      n < 115792089237316195423570985008687907853269984665640564039457584007913129639936 := by
    simpa using h256
  refine ⟨?_, ?_, ?_, ?_, ?_, ?_, rfl, rfl, rfl⟩
  · simp only [deserialize_u256]
    rw [if_neg hne, if_neg (by simp [hsw])]
    simp [from_dec_str, hdec', h256']
  · simp only [deserialize_u256]
    rw [if_neg hne2, if_pos hswHex]
    simp [from_str_radix_16, hswHex, hhex, h256']
  · simp [deserialize_u256, numAsU64, hn']
  · simp only [deserialize_u64]
    rw [if_neg hne, if_neg (by simp [hsw])]
    simp [from_dec_str, hdec', hn']
  · simp only [deserialize_u64]
    rw [if_neg hne2, if_pos hswHex]
    simp [from_str_radix_16, hswHex, hhex, hn']
  · simp [deserialize_u64, numAsU64, hn']

/-- C8 witness: the decimal string "26", the hex string "0x1a" and the JSON
number 26 all decode to 26, and the literal "0x" cases decode to zero and to
the absent address. -/
theorem tolerant_numeric_deserialization_witness :
    deserialize_u256 (.str ['2', '6']) = .ok 26
    ∧ deserialize_u256 (.str ['0', 'x', '1', 'a']) = .ok 26
    ∧ deserialize_u256 (.num (26 : Int)) = .ok 26
    ∧ deserialize_u64 (.str ['2', '6']) = .ok 26
    ∧ deserialize_u64 (.str ['0', 'x', '1', 'a']) = .ok 26
    ∧ deserialize_u64 (.num (26 : Int)) = .ok 26
    ∧ deserialize_u256 (.str ['0', 'x']) = .ok 0
    ∧ deserialize_u64 (.str ['0', 'x']) = .ok 0
    ∧ deserialize_optional_h160 (.str ['0', 'x']) = .ok none :=
  tolerant_numeric_deserialization 26 ['2', '6'] ['1', 'a']
    (by decide) (by decide) (by decide)
